import Mathlib

/-!
Verification of the nanobrowser agent control core.

This file gives a shallow embedding of the two decision cores of the
repository and proves the specified properties about them:

* `Control` — the adaptive sampling controller and parameter mapper from
  `chrome-extension/src/background/agent/control.ts`.  JavaScript numbers
  are modelled as real numbers; a possibly-NaN telemetry field is modelled
  as `Option ℝ` with `none` standing for NaN (every JS comparison against
  NaN is false, and `clamp` sends NaN to its lower bound).
* `Director` — the navigation-mode arbitrator `DirectorService.choose`
  together with its control options.  All scores are rational, so the
  embedding is fully computable.  The stateful parts of the original class
  (the remembered `lastMode` field, and the awaited append to the
  performance logger) are made explicit: `choose` takes the previous
  remembered mode and returns the new one, and the external logger is
  modelled by a boolean oracle `logOk` — `true` means the awaited
  `performanceLogger.addEvent` call resolves, `false` means it rejects,
  in which case the exception propagates out of `choose` (there is no
  try/catch around the awaited call in the source).
* `Settings` — the `generalSettingsStore` sanitization logic from
  `packages/storage/lib/settings/generalSettings.ts`, with the persisted
  record modelled as a record of optional fields (a JS object may lack
  any of them).
-/

deriving instance DecidableEq for Except

namespace Director

/-- Navigation modes, from `part_002` (`type NavigatorMode = 'dom' | 'vision'`). -/
inductive NavigatorMode where
  | dom
  | vision
deriving DecidableEq, Repr

/-- `DirectorProposal<T>` from `part_002`; `T` is the opaque `modelOutput`
payload and `U` the opaque action-record payload. -/
structure DirectorProposal (T U : Type) where
  mode : NavigatorMode
  score : ℚ
  modelOutput : T
  actions : List U
  rationale : String
deriving DecidableEq, Repr

/-- The per-mode adjusted score record `Record<NavigatorMode, number>`,
initialised to `{dom: 0, vision: 0}`. -/
structure Scores where
  dom : ℚ
  vision : ℚ
deriving DecidableEq, Repr

/-- The rationale strings produced by `choose`, modelled structurally: one
constructor per assignment site of `rationale` in the source, carrying the
numeric content that the source interpolates into the string. -/
inductive Rationale where
  /-- The initially selected proposal's own rationale string (no branch fired). -/
  | ofProposal (text : String)
  /-- Hysteresis retention of the previous mode, with the observed delta. -/
  | hysteresis (mode : NavigatorMode) (diff : ℚ)
  /-- Near-tie override to the DOM navigator, with the observed delta. -/
  | nearTie (diff : ℚ)
  /-- Decisive selection, stating the winning and losing adjusted scores. -/
  | decisive (mode : NavigatorMode) (topScore secondScore : ℚ)
  /-- Single-candidate case: only one proposal was available. -/
  | onlyOption (mode : NavigatorMode)
deriving DecidableEq, Repr

/-- `DirectorDecision<T>` from `part_002`. -/
structure DirectorDecision (T U : Type) where
  proposal : DirectorProposal T U
  rationale : Rationale
  scores : Scores
deriving DecidableEq, Repr

/-- `DirectorCtlOptions` from `part_002`. -/
structure DirectorCtlOptions where
  visionScoreOffset : ℚ
  hysteresisMargin : ℚ
  preferDomOnTie : Bool
deriving DecidableEq, Repr

/-- `Partial<DirectorCtlOptions>`: each field may be absent. -/
structure CtlPatch where
  visionScoreOffset : Option ℚ := none
  hysteresisMargin : Option ℚ := none
  preferDomOnTie : Option Bool := none
deriving DecidableEq, Repr

/-- `DEFAULT_CTL` from `part_002`. -/
def DEFAULT_CTL : DirectorCtlOptions :=
  { visionScoreOffset := 0.05
    hysteresisMargin := 0.08
    preferDomOnTie := true }

/-- The spread `{...DEFAULT_CTL, ...ctlOptions}` with a possibly-absent
(`undefined`) options argument. -/
def mergeCtl : Option CtlPatch → DirectorCtlOptions
  | none => DEFAULT_CTL
  | some p =>
      { visionScoreOffset := p.visionScoreOffset.getD DEFAULT_CTL.visionScoreOffset
        hysteresisMargin := p.hysteresisMargin.getD DEFAULT_CTL.hysteresisMargin
        preferDomOnTie := p.preferDomOnTie.getD DEFAULT_CTL.preferDomOnTie }

/-- `DirectorContextMeta` from `part_002` (only logged, never branched on). -/
structure DirectorContextMeta where
  taskId : String
  step : ℕ
deriving DecidableEq, Repr

/-- The score normalisation applied to each proposal: add
`visionScoreOffset` to vision-mode scores, leave DOM scores unchanged. -/
def adjustedScore {T U : Type} (ctl : DirectorCtlOptions) (p : DirectorProposal T U) : ℚ :=
  if p.mode = NavigatorMode.vision then p.score + ctl.visionScoreOffset else p.score

/-- The map step of `choose`: `{...proposal, score: adjusted}`. -/
def adjustProposal {T U : Type} (ctl : DirectorCtlOptions) (p : DirectorProposal T U) :
    DirectorProposal T U :=
  { p with score := adjustedScore ctl p }

/-- The sort comparator `(a, b) => b.score - a.score` (descending by score),
as the stable-sort predicate "a may stay before b". -/
def byScoreDesc {T U : Type} (a b : DirectorProposal T U) : Bool :=
  decide (b.score ≤ a.score)

/-- The `proposals.forEach` loop filling the `scores` record (last proposal
of a given mode wins), starting from `{dom: 0, vision: 0}`. -/
def recordScores {T U : Type} (ctl : DirectorCtlOptions)
    (proposals : List (DirectorProposal T U)) : Scores :=
  proposals.foldl
    (fun acc p =>
      match p.mode with
      | NavigatorMode.dom => { acc with dom := adjustedScore ctl p }
      | NavigatorMode.vision => { acc with vision := adjustedScore ctl p })
    { dom := 0, vision := 0 }

/-- Stable insertion of `x` into an already-sorted list: `x` is placed
before the first element it does not lose to. -/
def insertTop {α : Type} (le : α → α → Bool) (x : α) : List α → List α
  | [] => [x]
  | y :: ys => if le x y then x :: y :: ys else y :: insertTop le x ys

/-- Stable sort (insertion sort), modelling `Array.prototype.sort` with a
consistent comparator: JS sorts are stable, and for a consistent comparator
every stable sort produces the same output list. -/
def sortStable {α : Type} (le : α → α → Bool) : List α → List α
  | [] => []
  | x :: xs => insertTop le x (sortStable le xs)

/-- The two failure modes of `choose`: the explicit throw on an empty
proposal list, and a rejection of the awaited performance-logger append
propagating out of `choose`. -/
inductive ChooseError where
  | noProposals
  | logFailure
deriving DecidableEq, Repr

/-- `DirectorService.choose` from `part_002`, with the instance state made
explicit.  `lastMode` is the value of `this.lastMode` on entry; the second
component of the result is its value when the call finishes.  `logOk`
models the external Event Recorder: the source `await`s
`performanceLogger.addEvent` with no try/catch after updating
`this.lastMode`, so on a rejected append the error propagates
(`ChooseError.logFailure`) with the last mode already updated. -/
def choose {T U : Type} (lastMode : Option NavigatorMode)
    (proposals : List (DirectorProposal T U)) (stepMeta : DirectorContextMeta)
    (ctlOptions : Option CtlPatch) (logOk : Bool) :
    Except ChooseError (DirectorDecision T U) × Option NavigatorMode :=
  if proposals.isEmpty then
    (Except.error ChooseError.noProposals, lastMode)
  else
    let ctl := mergeCtl ctlOptions
    let scores := recordScores ctl proposals
    let sorted := sortStable byScoreDesc (proposals.map (adjustProposal ctl))
    match sorted with
    | [] =>
      -- unreachable: sorting a non-empty list is non-empty
      (Except.error ChooseError.noProposals, lastMode)
    | top :: rest =>
      let chosen : DirectorProposal T U × Rationale :=
        match rest with
        | [] => (top, Rationale.onlyOption top.mode)
        | second :: _ =>
          let diff := top.score - second.score
          let tieOrDecisive : DirectorProposal T U × Rationale :=
            if diff < 0.01 ∧ ctl.preferDomOnTie then
              match sorted.find? (fun c => decide (c.mode = NavigatorMode.dom)) with
              | some domCandidate => (domCandidate, Rationale.nearTie diff)
              | none => (top, Rationale.ofProposal top.rationale)
            else if ctl.hysteresisMargin ≤ diff then
              (top, Rationale.decisive top.mode top.score second.score)
            else
              (top, Rationale.ofProposal top.rationale)
          match lastMode with
          | some lm =>
            if lm ≠ top.mode ∧ diff < ctl.hysteresisMargin then
              match sorted.find? (fun c => decide (c.mode = lm)) with
              | some previous => (previous, Rationale.hysteresis previous.mode diff)
              | none => (top, Rationale.ofProposal top.rationale)
            else tieOrDecisive
          | none => tieOrDecisive
      let _ := stepMeta
      if logOk then
        (Except.ok { proposal := chosen.1, rationale := chosen.2, scores := scores },
          some chosen.1.mode)
      else
        (Except.error ChooseError.logFailure, some chosen.1.mode)

/-- The mode of the decision returned by a `choose` run, when it returned one. -/
def chosenMode {T U : Type}
    (r : Except ChooseError (DirectorDecision T U) × Option NavigatorMode) :
    Option NavigatorMode :=
  match r.1 with
  | Except.ok d => some d.proposal.mode
  | Except.error _ => none

/-- Whether a rationale came from the decisive branch. -/
def Rationale.isDecisive : Rationale → Bool
  | Rationale.decisive _ _ _ => true
  | _ => false

/-- The DOM proposal of end-to-end scenarios B and C (`score 0.50`). -/
def sampleDom : DirectorProposal Unit Unit :=
  { mode := NavigatorMode.dom, score := 0.50, modelOutput := (), actions := [], rationale := "dom-r" }

/-- The vision proposal of end-to-end scenarios B and C (`score 0.47`). -/
def sampleVision : DirectorProposal Unit Unit :=
  { mode := NavigatorMode.vision, score := 0.47, modelOutput := (), actions := [], rationale := "vis-r" }

/-- Step metadata used by the concrete scenarios. -/
def sampleMeta : DirectorContextMeta := { taskId := "t", step := 1 }

/-- A vision proposal in a near tie against `sampleDom` after the vision
offset: adjusted score `0.445 + 0.05 = 0.495` against DOM `0.50`. -/
def tieVision : DirectorProposal Unit Unit :=
  { mode := NavigatorMode.vision, score := 0.445, modelOutput := (), actions := [],
    rationale := "vis-tie" }

end Director

namespace Control

noncomputable section

/-- A JavaScript number that may be NaN: `none` is NaN, `some x` a finite
value.  Comparisons against NaN are false in JS, and `clamp` maps NaN to
its lower bound. -/
abbrev JsNum := Option ℝ

/-- `clamp` from `control.ts` on a non-NaN value:
`Math.min(Math.max(value, min), max)`. -/
def clamp (value lo hi : ℝ) : ℝ := min (max value lo) hi

/-- `clamp` from `control.ts` on a possibly-NaN value: the
`Number.isNaN(value)` branch returns the lower bound. -/
def clampNum : JsNum → ℝ → ℝ → ℝ
  | none, lo, _ => lo
  | some x, lo, hi => clamp x lo hi

def ALPHA_SUCCESS : ℝ := 0.35

def ALPHA_TIMEOUT : ℝ := 0.25

def ALPHA_LOOP : ℝ := 0.2

def WEIGHT_FAIL : ℝ := 0.7

def WEIGHT_TIMEOUT : ℝ := 0.2

def WEIGHT_LOOP : ℝ := 0.25

def SNAP_RESET : Bool := true

def MIN_SUCCESS_EMA : ℝ := 0.05

def MAX_EMA : ℝ := 0.999

/-- `ema` from `control.ts`. -/
def ema (prev sample alpha : ℝ) : ℝ :=
  alpha * clamp sample 0 1 + (1 - alpha) * clamp prev 0 1

/-- `smoothstep` from `control.ts`. -/
def smoothstep (value edge0 edge1 : ℝ) : ℝ :=
  let t := clamp ((value - edge0) / (edge1 - edge0)) 0 1
  t * t * (3 - 2 * t)

/-- `frictionBudget` from `control.ts`. -/
def frictionBudget (failurePressure timeoutPressure loopPressure : ℝ) : ℝ :=
  let numerator :=
    WEIGHT_FAIL * failurePressure + WEIGHT_TIMEOUT * timeoutPressure + WEIGHT_LOOP * loopPressure
  let denominator := WEIGHT_FAIL + WEIGHT_TIMEOUT + WEIGHT_LOOP
  clamp (numerator / denominator) 0 1

/-- `explorationRamp` from `control.ts`: `Math.pow(clamp(value, 0, 1), 0.85)`. -/
def explorationRamp (value : ℝ) : ℝ := clamp value 0 1 ^ (0.85 : ℝ)

/-- `Telemetry` from `control.ts`; the three numeric fields may be NaN. -/
structure Telemetry where
  lastOutcomeSuccess : Bool
  timeoutHappened : Bool
  loopScore : JsNum
  inputTokens : JsNum
  contextWindow : JsNum

/-- `ControlState` from `control.ts`. -/
structure ControlState where
  emaSuccess : ℝ
  emaTimeouts : ℝ
  emaLoop : ℝ
  e : ℝ
  g : ℝ

/-- `DEFAULT_CONTROL_STATE` from `control.ts`. -/
def DEFAULT_CONTROL_STATE : ControlState :=
  { emaSuccess := 1, emaTimeouts := 0, emaLoop := 0, e := 0, g := 0 }

/-- `computeController` from `control.ts`.  The context-window nudge guard
`telemetry.contextWindow > 0 && telemetry.inputTokens >= 0` is modelled by
the match: a NaN (`none`) on either side makes the comparison false and
skips the branch, exactly as in JS. -/
def computeController (state : ControlState) (telemetry : Telemetry) : ControlState :=
  let successSample : ℝ := if telemetry.lastOutcomeSuccess then 1 else 0
  let timeoutSample : ℝ := if telemetry.timeoutHappened then 1 else 0
  let loopSample := clampNum telemetry.loopScore 0 1
  let emaSuccess :=
    if telemetry.lastOutcomeSuccess && SNAP_RESET then 1
    else ema state.emaSuccess successSample ALPHA_SUCCESS
  let emaTimeouts := ema state.emaTimeouts timeoutSample ALPHA_TIMEOUT
  let emaLoop := ema state.emaLoop loopSample ALPHA_LOOP
  let failurePressure := 1 - clamp emaSuccess MIN_SUCCESS_EMA MAX_EMA
  let timeoutPressure := emaTimeouts
  let loopPressure := emaLoop
  let exploration0 := frictionBudget failurePressure timeoutPressure loopPressure
  let exploration :=
    match telemetry.contextWindow, telemetry.inputTokens with
    | some w, some tok =>
      if 0 < w ∧ 0 ≤ tok then
        clamp (exploration0 + 0.1 * clamp (tok / w) 0 1) 0 1
      else exploration0
    | _, _ => exploration0
  let e :=
    if telemetry.lastOutcomeSuccess && SNAP_RESET then 0 else explorationRamp exploration
  let g :=
    if telemetry.lastOutcomeSuccess && SNAP_RESET then 0 else smoothstep e 0.55 0.9
  { emaSuccess := emaSuccess
    emaTimeouts := emaTimeouts
    emaLoop := emaLoop
    e := e
    g := g }

/-- `Role` from `control.ts`. -/
inductive Role where
  | planner
  | navigator
deriving DecidableEq, Repr

/-- `LLMSettings` from `control.ts`; `top_k` is optional. -/
structure LLMSettings where
  temperature : ℝ
  top_p : ℝ
  frequency_penalty : ℝ
  presence_penalty : ℝ
  top_k : Option ℝ := none
  max_tokens : ℝ

/-- `Defaults` from `control.ts`. -/
structure Defaults where
  planner : LLMSettings
  navigator : LLMSettings

/-- The indexing `defaults[role]`. -/
def Defaults.get (d : Defaults) : Role → LLMSettings
  | Role.planner => d.planner
  | Role.navigator => d.navigator

/-- `DirectorContext` from `control.ts` (optional token-budget hint). -/
structure DirectorContext where
  tokenBufferRatio : Option ℝ := none

/-- `adjustTemperature` from `control.ts`. -/
def adjustTemperature (base exploration : ℝ) (role : Role) : ℝ :=
  let maxBoost : ℝ := if role = Role.planner then 0.65 else 0.45
  clamp (base + maxBoost * exploration) 0 2

/-- `adjustTopP` from `control.ts`. -/
def adjustTopP (base exploration : ℝ) (role : Role) : ℝ :=
  let maxBoost : ℝ := if role = Role.planner then 0.25 else 0.18
  clamp (base + maxBoost * exploration) 0 1

/-- `adjustPenalties` from `control.ts`. -/
def adjustPenalties (base glide : ℝ) : ℝ :=
  let relief := 0.35 * glide
  clamp (base - relief) (-2) 2

/-- `adjustTopK` from `control.ts`: a missing baseline `top_k` stays
missing; otherwise the boosted value is rounded and clamped to [1, 2000].
JS `Math.round x = ⌊x + 1/2⌋` coincides with Mathlib's `round`. -/
def adjustTopK : Option ℝ → ℝ → Option ℝ
  | none, _ => none
  | some topK, exploration =>
    let delta : ℤ := round (topK * (0.3 * exploration))
    some (clamp (topK + delta) 1 2000)

/-- `adjustMaxTokens` from `control.ts`. -/
def adjustMaxTokens (base exploration glide : ℝ) (ctx : DirectorContext) : ℝ :=
  let explorationBonus : ℤ := round (base * (0.15 * exploration + 0.1 * glide))
  let tokenBufferRatio := clamp (ctx.tokenBufferRatio.getD 0) 0 1
  let bufferBonus : ℤ := round (base * 0.1 * tokenBufferRatio)
  clamp (base + explorationBonus + bufferBonus) 128 320000

/-- `directorMap` from `control.ts`. -/
def directorMap (role : Role) (exploration glide : ℝ) (defaults : Defaults)
    (ctx : DirectorContext := {}) : LLMSettings :=
  let baseline := defaults.get role
  let tunedExploration := explorationRamp exploration
  { temperature := adjustTemperature baseline.temperature tunedExploration role
    top_p := adjustTopP baseline.top_p tunedExploration role
    frequency_penalty := adjustPenalties baseline.frequency_penalty glide
    presence_penalty := adjustPenalties baseline.presence_penalty (glide * 0.75)
    top_k := adjustTopK baseline.top_k tunedExploration
    max_tokens := adjustMaxTokens baseline.max_tokens tunedExploration glide ctx }

/-- Scenario A's telemetry:
`{success:false, timeout:true, loopScore:0.9, inputTokens:0, contextWindow:0}`. -/
def scenarioTelemetry : Telemetry :=
  { lastOutcomeSuccess := false
    timeoutHappened := true
    loopScore := some 0.9
    inputTokens := some 0
    contextWindow := some 0 }

/-- Scenario A's state sequence: the default initial state, updated by
`computeController` with `scenarioTelemetry` at each step. -/
def scenarioState : ℕ → ControlState
  | 0 => DEFAULT_CONTROL_STATE
  | n + 1 => computeController (scenarioState n) scenarioTelemetry


/-- Membership of a real number in the unit interval. -/
def InUnit (x : ℝ) : Prop := 0 ≤ x ∧ x ≤ 1

/-- All five controller fields lie in the unit interval. -/
def StateInUnit (s : ControlState) : Prop :=
  InUnit s.emaSuccess ∧ InUnit s.emaTimeouts ∧ InUnit s.emaLoop ∧ InUnit s.e ∧ InUnit s.g

/-- A malformed telemetry sample: NaN loop score, NaN input tokens, and a
negative context window. -/
def nanTelemetry : Telemetry :=
  { lastOutcomeSuccess := false
    timeoutHappened := true
    loopScore := none
    inputTokens := none
    contextWindow := some (-5) }

/-- A successful telemetry sample with otherwise hostile fields. -/
def successTelemetry : Telemetry :=
  { lastOutcomeSuccess := true
    timeoutHappened := true
    loopScore := some 0.9
    inputTokens := some 10
    contextWindow := some 100 }

/-- Baseline defaults with a (nonsensical) negative `max_tokens` on the
navigator role, used to refute the unconditional glide monotonicity. -/
def cxDefaults : Defaults :=
  { planner :=
      { temperature := 1, top_p := 1, frequency_penalty := 0, presence_penalty := 0,
        top_k := none, max_tokens := 4096 }
    navigator :=
      { temperature := 1, top_p := 1, frequency_penalty := 0, presence_penalty := 0,
        top_k := none, max_tokens := -10000 } }

end

end Control

namespace Settings

/-- `GeneralSettingsConfig` from
`packages/storage/lib/settings/generalSettings.ts` (the version cited by
the claims, with a `minWaitPageLoad` field). -/
structure GeneralSettingsConfig where
  maxSteps : ℚ
  maxActionsPerStep : ℚ
  maxFailures : ℚ
  useVision : Bool
  useVisionForPlanner : Bool
  planningInterval : ℚ
  displayHighlights : Bool
  minWaitPageLoad : ℚ
  replayHistoricalTasks : Bool
deriving DecidableEq, Repr

/-- A possibly-incomplete persisted record: a JS object read back from
storage may lack any of the fields. -/
structure GSPatch where
  maxSteps : Option ℚ := none
  maxActionsPerStep : Option ℚ := none
  maxFailures : Option ℚ := none
  useVision : Option Bool := none
  useVisionForPlanner : Option Bool := none
  planningInterval : Option ℚ := none
  displayHighlights : Option Bool := none
  minWaitPageLoad : Option ℚ := none
  replayHistoricalTasks : Option Bool := none
deriving DecidableEq, Repr

/-- `DEFAULT_GENERAL_SETTINGS` from the same file. -/
def DEFAULT_GENERAL_SETTINGS : GeneralSettingsConfig :=
  { maxSteps := 100
    maxActionsPerStep := 5
    maxFailures := 3
    useVision := true
    useVisionForPlanner := true
    planningInterval := 3
    displayHighlights := true
    minWaitPageLoad := 0
    replayHistoricalTasks := true }

/-- The spread `{...base, ...patch}`: fields present in the patch win. -/
def spreadConfig (base : GeneralSettingsConfig) (p : GSPatch) : GeneralSettingsConfig :=
  { maxSteps := p.maxSteps.getD base.maxSteps
    maxActionsPerStep := p.maxActionsPerStep.getD base.maxActionsPerStep
    maxFailures := p.maxFailures.getD base.maxFailures
    useVision := p.useVision.getD base.useVision
    useVisionForPlanner := p.useVisionForPlanner.getD base.useVisionForPlanner
    planningInterval := p.planningInterval.getD base.planningInterval
    displayHighlights := p.displayHighlights.getD base.displayHighlights
    minWaitPageLoad := p.minWaitPageLoad.getD base.minWaitPageLoad
    replayHistoricalTasks := p.replayHistoricalTasks.getD base.replayHistoricalTasks }

/-- The spread `{...current, ...settings}` of two partial records. -/
def spreadPatch (current p : GSPatch) : GSPatch :=
  { maxSteps := p.maxSteps.orElse fun _ => current.maxSteps
    maxActionsPerStep := p.maxActionsPerStep.orElse fun _ => current.maxActionsPerStep
    maxFailures := p.maxFailures.orElse fun _ => current.maxFailures
    useVision := p.useVision.orElse fun _ => current.useVision
    useVisionForPlanner := p.useVisionForPlanner.orElse fun _ => current.useVisionForPlanner
    planningInterval := p.planningInterval.orElse fun _ => current.planningInterval
    displayHighlights := p.displayHighlights.orElse fun _ => current.displayHighlights
    minWaitPageLoad := p.minWaitPageLoad.orElse fun _ => current.minWaitPageLoad
    replayHistoricalTasks :=
      p.replayHistoricalTasks.orElse fun _ => current.replayHistoricalTasks }

/-- Conversion of a full config into a stored record with every field set. -/
def toPatch (c : GeneralSettingsConfig) : GSPatch :=
  { maxSteps := some c.maxSteps
    maxActionsPerStep := some c.maxActionsPerStep
    maxFailures := some c.maxFailures
    useVision := some c.useVision
    useVisionForPlanner := some c.useVisionForPlanner
    planningInterval := some c.planningInterval
    displayHighlights := some c.displayHighlights
    minWaitPageLoad := some c.minWaitPageLoad
    replayHistoricalTasks := some c.replayHistoricalTasks }

/-- `generalSettingsStore.getSettings`: spread the stored record (or `{}`
when nothing is stored) over the defaults, then force the four fields
`useVision`, `useVisionForPlanner`, `minWaitPageLoad`, and
`replayHistoricalTasks`.  `stored` is what `storage.get()` yields. -/
def getSettings (stored : Option GSPatch) : GeneralSettingsConfig :=
  let sanitizedSettings := spreadConfig DEFAULT_GENERAL_SETTINGS (stored.getD {})
  { sanitizedSettings with
    useVision := true
    useVisionForPlanner := true
    minWaitPageLoad := 0
    replayHistoricalTasks := true }

/-- `generalSettingsStore.updateSettings`: merge the partial update into the
current stored record (`(await storage.get()) || DEFAULT_GENERAL_SETTINGS`),
force the same four fields, and return the record passed to
`storage.set`. -/
def updateSettings (stored : Option GSPatch) (settings : GSPatch) : GSPatch :=
  let currentSettings : GSPatch :=
    match stored with
    | none => toPatch DEFAULT_GENERAL_SETTINGS
    | some p => p
  let updatedSettings := spreadPatch currentSettings settings
  { updatedSettings with
    useVision := some true
    useVisionForPlanner := some true
    minWaitPageLoad := some 0
    replayHistoricalTasks := some true }

end Settings

namespace Director

theorem insertTop_ne_nil {α : Type} (le : α → α → Bool) (x : α) (l : List α) :
    insertTop le x l ≠ [] := by
  cases l with
  | nil => simp [insertTop]
  | cons y ys =>
    simp only [insertTop]
    split <;> simp

theorem sortStable_eq_nil_iff {α : Type} (le : α → α → Bool) (l : List α) :
    sortStable le l = [] ↔ l = [] := by
  cases l with
  | nil => simp [sortStable]
  | cons x xs =>
    simp only [sortStable]
    exact ⟨fun h => absurd h (insertTop_ne_nil le x _), fun h => by simp at h⟩

theorem sortStable_pair {α : Type} (le : α → α → Bool) (x y : α) :
    sortStable le [x, y] = if le x y then [x, y] else [y, x] := by
  simp [sortStable, insertTop]

@[simp] theorem adjustProposal_mode {T U : Type} (ctl : DirectorCtlOptions)
    (p : DirectorProposal T U) : (adjustProposal ctl p).mode = p.mode := rfl

@[simp] theorem adjustProposal_score {T U : Type} (ctl : DirectorCtlOptions)
    (p : DirectorProposal T U) : (adjustProposal ctl p).score = adjustedScore ctl p := rfl

@[simp] theorem mergeCtl_none : mergeCtl none = DEFAULT_CTL := rfl

/-- Evaluation of `choose` when the hysteresis branch fires: the sorted list
is `[t, s]`, the previous mode `m` differs from the leader's mode, matches
the runner-up's mode, and the delta is below the hysteresis margin. -/
theorem choose_hysteresis_core {T U : Type} (m : NavigatorMode)
    (l : List (DirectorProposal T U)) (stepMeta : DirectorContextMeta)
    (po : Option CtlPatch) (t s : DirectorProposal T U)
    (hl : l.isEmpty = false)
    (hsorted : sortStable byScoreDesc (List.map (adjustProposal (mergeCtl po)) l) = [t, s])
    (htm : t.mode ≠ m) (hsm : s.mode = m)
    (hdiff : t.score - s.score < (mergeCtl po).hysteresisMargin) :
    choose (some m) l stepMeta po true =
      (Except.ok
        { proposal := s
          rationale := Rationale.hysteresis s.mode (t.score - s.score)
          scores := recordScores (mergeCtl po) l },
        some s.mode) := by
  simp only [choose, hl, Bool.false_eq_true, if_false, hsorted]
  have hc : m ≠ t.mode ∧ t.score - s.score < (mergeCtl po).hysteresisMargin :=
    ⟨Ne.symm htm, hdiff⟩
  rw [List.find?_cons_of_neg _ (by simp [htm]), List.find?_cons_of_pos _ (by simp [hsm])]
  simp [hc]

/-- Evaluation of `choose` when the near-tie branch fires: the sorted list is
`[t, s]`, the previous mode (if any) equals the leader's mode, the delta is
below the near-tie epsilon, DOM is preferred on ties, and `w` is the first
DOM-mode candidate of the sorted list. -/
theorem choose_near_tie_core {T U : Type} (lastMode : Option NavigatorMode)
    (l : List (DirectorProposal T U)) (stepMeta : DirectorContextMeta)
    (po : Option CtlPatch) (t s w : DirectorProposal T U)
    (hl : l.isEmpty = false)
    (hsorted : sortStable byScoreDesc (List.map (adjustProposal (mergeCtl po)) l) = [t, s])
    (hno1 : ∀ m, lastMode = some m → m = t.mode)
    (hdiff : t.score - s.score < 0.01)
    (hpref : (mergeCtl po).preferDomOnTie = true)
    (hfind : List.find? (fun c => decide (c.mode = NavigatorMode.dom)) [t, s] = some w) :
    choose lastMode l stepMeta po true =
      (Except.ok
        { proposal := w
          rationale := Rationale.nearTie (t.score - s.score)
          scores := recordScores (mergeCtl po) l },
        some w.mode) := by
  simp only [choose, hl, Bool.false_eq_true, if_false, hsorted]
  have hc : t.score - s.score < 0.01 ∧ (mergeCtl po).preferDomOnTie = true := ⟨hdiff, hpref⟩
  rw [hfind]
  cases lastMode with
  | none => simp [hc]
  | some m =>
    have hm : m = t.mode := hno1 m rfl
    simp [hc, hm]

end Director

section DirectorClaims

open Director

/-- Claim C5: arbitration on an empty proposal list always yields the
documented `noProposals` error with the remembered last mode unchanged,
and on every non-empty list that error is never raised. -/
theorem choose_empty_error :
    (∀ (T U : Type) (lastMode : Option NavigatorMode) (stepMeta : DirectorContextMeta)
        (po : Option CtlPatch) (logOk : Bool),
        choose (T := T) (U := U) lastMode [] stepMeta po logOk =
          (Except.error ChooseError.noProposals, lastMode)) ∧
    (∀ (T U : Type) (lastMode : Option NavigatorMode) (l : List (DirectorProposal T U))
        (stepMeta : DirectorContextMeta) (po : Option CtlPatch) (logOk : Bool),
        l ≠ [] →
        (choose lastMode l stepMeta po logOk).1 ≠ Except.error ChooseError.noProposals) := by
  constructor
  · intro T U lastMode stepMeta po logOk
    rfl
  · intro T U lastMode l stepMeta po logOk hl
    cases l with
    | nil => exact absurd rfl hl
    | cons x xs =>
      have hsne :
          sortStable byScoreDesc (List.map (adjustProposal (mergeCtl po)) (x :: xs)) ≠ [] := by
        rw [Ne, sortStable_eq_nil_iff]
        simp
      obtain ⟨t, ts, hts⟩ := List.exists_cons_of_ne_nil hsne
      simp only [choose, List.isEmpty_cons, Bool.false_eq_true, if_false, hts]
      cases logOk <;> simp

/-- Witness for C5 at a concrete non-empty input. -/
theorem choose_empty_error_witness :
    ([sampleDom] ≠ ([] : List (DirectorProposal Unit Unit))) ∧
    (choose none [sampleDom] sampleMeta none true).1 ≠
      Except.error ChooseError.noProposals :=
  ⟨by simp, choose_empty_error.2 Unit Unit none [sampleDom] sampleMeta none true (by simp)⟩

/-- Counterexample for C6: with a single valid proposal and a rejecting
Event Recorder append, `choose` does not return the computed decision — the
rejection propagates to the caller (the source awaits the append with no
try/catch). -/
theorem choose_log_failure_counterexample :
    (choose none [sampleDom] sampleMeta none false).1 =
      Except.error ChooseError.logFailure := by
  with_unfolding_all rfl

/-- Amended C6: the decision and the last-mode update are computed before
the append, so a failing append makes `choose` itself fail with the
logger's error; the remembered last mode is nevertheless identical to the
successful run, and the decision that run returns is the one already
computed. -/
theorem choose_log_failure_amended :
    ∀ (T U : Type) (lastMode : Option NavigatorMode) (l : List (DirectorProposal T U))
      (stepMeta : DirectorContextMeta) (po : Option CtlPatch),
      l ≠ [] →
      ∃ d : DirectorDecision T U,
        choose lastMode l stepMeta po true = (Except.ok d, some d.proposal.mode) ∧
        choose lastMode l stepMeta po false =
          (Except.error ChooseError.logFailure, some d.proposal.mode) := by
  intro T U lastMode l stepMeta po hl
  cases l with
  | nil => exact absurd rfl hl
  | cons x xs =>
    have hsne :
        sortStable byScoreDesc (List.map (adjustProposal (mergeCtl po)) (x :: xs)) ≠ [] := by
      rw [Ne, sortStable_eq_nil_iff]
      simp
    obtain ⟨t, ts, hts⟩ := List.exists_cons_of_ne_nil hsne
    simp only [choose, List.isEmpty_cons, Bool.false_eq_true, if_false, hts]
    exact ⟨_, rfl, rfl⟩

/-- Witness for the amended C6 at a concrete non-empty input. -/
theorem choose_log_failure_amended_witness :
    ([sampleDom] ≠ ([] : List (DirectorProposal Unit Unit))) ∧
    ∃ d : DirectorDecision Unit Unit,
      choose none [sampleDom] sampleMeta none true = (Except.ok d, some d.proposal.mode) ∧
      choose none [sampleDom] sampleMeta none false =
        (Except.error ChooseError.logFailure, some d.proposal.mode) :=
  ⟨by simp, choose_log_failure_amended Unit Unit none [sampleDom] sampleMeta none (by simp)⟩

end DirectorClaims

section DirectorClaims2

open Director

/-- Claim C3: hysteresis retention.  With a remembered previous mode `M` and
two proposals, one per mode, where the non-M candidate's adjusted score
leads the M candidate's by strictly less than the hysteresis margin, the
proposal of mode `M` is selected; in particular scenario C (DOM 0.50 vs
vision 0.47, defaults, previous mode DOM) retains the DOM proposal. -/
theorem choose_hysteresis_retention :
    (∀ (T U : Type) (pM pN : DirectorProposal T U) (l : List (DirectorProposal T U))
        (stepMeta : DirectorContextMeta) (po : Option CtlPatch),
        pN.mode ≠ pM.mode →
        (l = [pM, pN] ∨ l = [pN, pM]) →
        0 < adjustedScore (mergeCtl po) pN - adjustedScore (mergeCtl po) pM →
        adjustedScore (mergeCtl po) pN - adjustedScore (mergeCtl po) pM <
          (mergeCtl po).hysteresisMargin →
        chosenMode (choose (some pM.mode) l stepMeta po true) = some pM.mode) ∧
    choose (some NavigatorMode.dom) [sampleDom, sampleVision] sampleMeta none true =
      (Except.ok
        { proposal := sampleDom
          rationale := Rationale.hysteresis NavigatorMode.dom 0.02
          scores := { dom := 0.50, vision := 0.52 } },
        some NavigatorMode.dom) := by
  constructor
  · intro T U pM pN l stepMeta po hmode horder hpos hlt
    have hab : adjustedScore (mergeCtl po) pM < adjustedScore (mergeCtl po) pN := by linarith
    rcases horder with rfl | rfl
    · have hsorted :
          sortStable byScoreDesc (List.map (adjustProposal (mergeCtl po)) [pM, pN]) =
            [adjustProposal (mergeCtl po) pN, adjustProposal (mergeCtl po) pM] := by
        rw [List.map_cons, List.map_cons, List.map_nil, sortStable_pair,
          if_neg (by simpa [byScoreDesc, not_le] using hab)]
      have hcore := choose_hysteresis_core pM.mode [pM, pN] stepMeta po
        (adjustProposal (mergeCtl po) pN) (adjustProposal (mergeCtl po) pM)
        rfl hsorted (by simpa using hmode) (by simp) (by simpa using hlt)
      simp [chosenMode, hcore]
    · have hsorted :
          sortStable byScoreDesc (List.map (adjustProposal (mergeCtl po)) [pN, pM]) =
            [adjustProposal (mergeCtl po) pN, adjustProposal (mergeCtl po) pM] := by
        rw [List.map_cons, List.map_cons, List.map_nil, sortStable_pair,
          if_pos (by simpa [byScoreDesc] using hab.le)]
      have hcore := choose_hysteresis_core pM.mode [pN, pM] stepMeta po
        (adjustProposal (mergeCtl po) pN) (adjustProposal (mergeCtl po) pM)
        rfl hsorted (by simpa using hmode) (by simp) (by simpa using hlt)
      simp [chosenMode, hcore]
  · with_unfolding_all rfl

/-- Evaluation of the adjusted scenario scores under the default options. -/
theorem sampleDom_adj : adjustedScore (mergeCtl none) sampleDom = 0.50 := by
  with_unfolding_all rfl

/-- Evaluation of the adjusted vision scenario score (`0.47 + 0.05`). -/
theorem sampleVision_adj : adjustedScore (mergeCtl none) sampleVision = 0.52 := by
  with_unfolding_all rfl

/-- Witness for the general part of C3 at scenario C's concrete input. -/
theorem choose_hysteresis_retention_witness :
    (sampleVision.mode ≠ sampleDom.mode ∧
      0 < adjustedScore (mergeCtl none) sampleVision - adjustedScore (mergeCtl none) sampleDom ∧
      adjustedScore (mergeCtl none) sampleVision - adjustedScore (mergeCtl none) sampleDom <
        (mergeCtl none).hysteresisMargin) ∧
    chosenMode (choose (some sampleDom.mode) [sampleDom, sampleVision] sampleMeta none true) =
      some sampleDom.mode :=
  ⟨⟨by decide,
    by rw [sampleVision_adj, sampleDom_adj]; norm_num,
    by rw [sampleVision_adj, sampleDom_adj]; norm_num [mergeCtl, DEFAULT_CTL]⟩,
    choose_hysteresis_retention.1 Unit Unit sampleDom sampleVision
      [sampleDom, sampleVision] sampleMeta none (by decide) (Or.inl rfl)
      (by rw [sampleVision_adj, sampleDom_adj]; norm_num)
      (by rw [sampleVision_adj, sampleDom_adj]; norm_num [mergeCtl, DEFAULT_CTL])⟩

end DirectorClaims2

section DirectorClaims3

open Director

/-- Counterexample for C4: a two-proposal near tie (DOM adjusted 0.50,
vision adjusted 0.495, delta 0.005 < 0.01) with `preferDomOnTie = true`
and a DOM proposal present, but remembered previous mode vision: the
hysteresis branch takes precedence over the near-tie override and the
vision proposal is selected, not the DOM one. -/
theorem choose_tie_break_counterexample :
    chosenMode (choose (some NavigatorMode.vision) [sampleDom, tieVision] sampleMeta none true) =
        some NavigatorMode.vision ∧
      NavigatorMode.vision ≠ NavigatorMode.dom := by
  constructor
  · with_unfolding_all rfl
  · decide

/-- Amended C4: with default options, a two-proposal input whose adjusted
scores differ by less than the near-tie epsilon 0.01 and containing a
DOM-mode proposal resolves to the DOM proposal for every remembered
previous mode other than vision (when the previous mode is vision and the
adjusted leader is the DOM proposal, the hysteresis override takes
precedence and retains vision instead). -/
theorem choose_tie_break_amended :
    ∀ (T U : Type) (a b : DirectorProposal T U) (lastMode : Option NavigatorMode)
      (stepMeta : DirectorContextMeta),
      lastMode ≠ some NavigatorMode.vision →
      (a.mode = NavigatorMode.dom ∨ b.mode = NavigatorMode.dom) →
      |adjustedScore DEFAULT_CTL a - adjustedScore DEFAULT_CTL b| < 0.01 →
      chosenMode (choose lastMode [a, b] stepMeta none true) = some NavigatorMode.dom := by
  intro T U a b lastMode stepMeta hlm hdom habs
  rw [abs_lt] at habs
  obtain ⟨h1, h2⟩ := habs
  have hmargin : (mergeCtl none).hysteresisMargin = 0.08 := rfl
  by_cases hord : adjustedScore DEFAULT_CTL b ≤ adjustedScore DEFAULT_CTL a
  · -- sorted = [a', b']
    have hsorted :
        sortStable byScoreDesc (List.map (adjustProposal (mergeCtl none)) [a, b]) =
          [adjustProposal DEFAULT_CTL a, adjustProposal DEFAULT_CTL b] := by
      rw [mergeCtl_none, List.map_cons, List.map_cons, List.map_nil, sortStable_pair,
        if_pos (by simpa [byScoreDesc] using hord)]
    have hdiff :
        (adjustProposal DEFAULT_CTL a).score - (adjustProposal DEFAULT_CTL b).score < 0.01 := by
      simpa using h2
    by_cases hA : a.mode = NavigatorMode.dom
    · have hno1 : ∀ m, lastMode = some m → m = (adjustProposal DEFAULT_CTL a).mode := by
        intro m hm
        cases m with
        | dom => simp [hA]
        | vision => exact absurd hm hlm
      have hfind :
          List.find? (fun c => decide (c.mode = NavigatorMode.dom))
              [adjustProposal DEFAULT_CTL a, adjustProposal DEFAULT_CTL b] =
            some (adjustProposal DEFAULT_CTL a) :=
        List.find?_cons_of_pos _ (by simp [hA])
      have hcore := choose_near_tie_core lastMode [a, b] stepMeta none
        (adjustProposal DEFAULT_CTL a) (adjustProposal DEFAULT_CTL b)
        (adjustProposal DEFAULT_CTL a) rfl hsorted hno1 hdiff rfl hfind
      simp [chosenMode, hcore, hA]
    · have hAv : a.mode = NavigatorMode.vision := by
        cases hAm : a.mode with
        | dom => exact absurd hAm hA
        | vision => rfl
      have hB : b.mode = NavigatorMode.dom := hdom.resolve_left hA
      cases lastMode with
      | none =>
        have hfind :
            List.find? (fun c => decide (c.mode = NavigatorMode.dom))
                [adjustProposal DEFAULT_CTL a, adjustProposal DEFAULT_CTL b] =
              some (adjustProposal DEFAULT_CTL b) := by
          rw [List.find?_cons_of_neg _ (by simp [hAv]), List.find?_cons_of_pos _ (by simp [hB])]
        have hcore := choose_near_tie_core none [a, b] stepMeta none
          (adjustProposal DEFAULT_CTL a) (adjustProposal DEFAULT_CTL b)
          (adjustProposal DEFAULT_CTL b) rfl hsorted (by intro m hm; cases hm) hdiff rfl hfind
        simp [chosenMode, hcore, hB]
      | some m =>
        cases m with
        | vision => exact absurd rfl hlm
        | dom =>
          have hdiffm :
              (adjustProposal DEFAULT_CTL a).score - (adjustProposal DEFAULT_CTL b).score <
                (mergeCtl none).hysteresisMargin := by
            rw [hmargin]
            linarith
          have hcore := choose_hysteresis_core NavigatorMode.dom [a, b] stepMeta none
            (adjustProposal DEFAULT_CTL a) (adjustProposal DEFAULT_CTL b)
            rfl hsorted (by simp [hAv]) (by simp [hB]) hdiffm
          simp [chosenMode, hcore, hB]
  · -- sorted = [b', a']
    have hba : adjustedScore DEFAULT_CTL a < adjustedScore DEFAULT_CTL b := lt_of_not_le hord
    have hsorted :
        sortStable byScoreDesc (List.map (adjustProposal (mergeCtl none)) [a, b]) =
          [adjustProposal DEFAULT_CTL b, adjustProposal DEFAULT_CTL a] := by
      rw [mergeCtl_none, List.map_cons, List.map_cons, List.map_nil, sortStable_pair,
        if_neg (by simpa [byScoreDesc, not_le] using hba)]
    have hdiff :
        (adjustProposal DEFAULT_CTL b).score - (adjustProposal DEFAULT_CTL a).score < 0.01 := by
      simp only [adjustProposal_score]
      linarith
    by_cases hBd : b.mode = NavigatorMode.dom
    · have hno1 : ∀ m, lastMode = some m → m = (adjustProposal DEFAULT_CTL b).mode := by
        intro m hm
        cases m with
        | dom => simp [hBd]
        | vision => exact absurd hm hlm
      have hfind :
          List.find? (fun c => decide (c.mode = NavigatorMode.dom))
              [adjustProposal DEFAULT_CTL b, adjustProposal DEFAULT_CTL a] =
            some (adjustProposal DEFAULT_CTL b) :=
        List.find?_cons_of_pos _ (by simp [hBd])
      have hcore := choose_near_tie_core lastMode [a, b] stepMeta none
        (adjustProposal DEFAULT_CTL b) (adjustProposal DEFAULT_CTL a)
        (adjustProposal DEFAULT_CTL b) rfl hsorted hno1 hdiff rfl hfind
      simp [chosenMode, hcore, hBd]
    · have hBv : b.mode = NavigatorMode.vision := by
        cases hBm : b.mode with
        | dom => exact absurd hBm hBd
        | vision => rfl
      have hA : a.mode = NavigatorMode.dom := hdom.resolve_right hBd
      cases lastMode with
      | none =>
        have hfind :
            List.find? (fun c => decide (c.mode = NavigatorMode.dom))
                [adjustProposal DEFAULT_CTL b, adjustProposal DEFAULT_CTL a] =
              some (adjustProposal DEFAULT_CTL a) := by
          rw [List.find?_cons_of_neg _ (by simp [hBv]), List.find?_cons_of_pos _ (by simp [hA])]
        have hcore := choose_near_tie_core none [a, b] stepMeta none
          (adjustProposal DEFAULT_CTL b) (adjustProposal DEFAULT_CTL a)
          (adjustProposal DEFAULT_CTL a) rfl hsorted (by intro m hm; cases hm) hdiff rfl hfind
        simp [chosenMode, hcore, hA]
      | some m =>
        cases m with
        | vision => exact absurd rfl hlm
        | dom =>
          have hdiffm :
              (adjustProposal DEFAULT_CTL b).score - (adjustProposal DEFAULT_CTL a).score <
                (mergeCtl none).hysteresisMargin := by
            rw [hmargin]
            linarith
          have hcore := choose_hysteresis_core NavigatorMode.dom [a, b] stepMeta none
            (adjustProposal DEFAULT_CTL b) (adjustProposal DEFAULT_CTL a)
            rfl hsorted (by simp [hBv]) (by simp [hA]) hdiffm
          simp [chosenMode, hcore, hA]

/-- Evaluation of the near-tie vision score (`0.445 + 0.05`). -/
theorem tieVision_adj : adjustedScore DEFAULT_CTL tieVision = 0.495 := by
  with_unfolding_all rfl

/-- Evaluation of the DOM scenario score under the default options. -/
theorem sampleDom_adj_default : adjustedScore DEFAULT_CTL sampleDom = 0.50 := by
  with_unfolding_all rfl

/-- Witness for the amended C4 at a concrete near-tie input. -/
theorem choose_tie_break_amended_witness :
    ((none : Option NavigatorMode) ≠ some NavigatorMode.vision ∧
      (sampleDom.mode = NavigatorMode.dom ∨ tieVision.mode = NavigatorMode.dom) ∧
      |adjustedScore DEFAULT_CTL sampleDom - adjustedScore DEFAULT_CTL tieVision| < 0.01) ∧
    chosenMode (choose none [sampleDom, tieVision] sampleMeta none true) =
      some NavigatorMode.dom :=
  ⟨⟨by simp, Or.inl rfl,
    by rw [sampleDom_adj_default, tieVision_adj]; rw [abs_lt]; constructor <;> norm_num⟩,
    choose_tie_break_amended Unit Unit sampleDom tieVision none sampleMeta (by simp)
      (Or.inl rfl)
      (by rw [sampleDom_adj_default, tieVision_adj]; rw [abs_lt]; constructor <;> norm_num)⟩

end DirectorClaims3

section DirectorClaims4

open Director

/-- Counterexample for C9: with proposals DOM 0.50 / vision 0.47, default
options and no previous mode, the decisive branch does not apply — the
adjusted delta 0.02 is below the hysteresis margin 0.08, so the selection
falls through with the proposal's own rationale, not a decisive rationale
stating the winning and losing scores. -/
theorem scenarioB_counterexample :
    Except.map (fun d => d.rationale.isDecisive)
        (choose none [sampleDom, sampleVision] sampleMeta none true).1 =
      Except.ok false := by
  with_unfolding_all rfl

/-- Amended C9: scenario B selects the vision proposal with adjusted scores
vision 0.52 vs DOM 0.50, but through the fall-through narrow band
(0.01 ≤ 0.02 < 0.08): the top candidate is kept with its own rationale
rather than via the decisive case. -/
theorem scenarioB_amended :
    choose none [sampleDom, sampleVision] sampleMeta none true =
      (Except.ok
        { proposal := { sampleVision with score := 0.52 }
          rationale := Rationale.ofProposal "vis-r"
          scores := { dom := 0.50, vision := 0.52 } },
        some NavigatorMode.vision) := by
  with_unfolding_all rfl

end DirectorClaims4

section SettingsClaims

open Settings

/-- Claim C10: whatever record is persisted under `general-settings`
(including one with the vision flags stored as `false` or fields missing),
`getSettings` returns a configuration with `useVision = true`,
`useVisionForPlanner = true`, `minWaitPageLoad = 0` and
`replayHistoricalTasks = true`, and `updateSettings` persists those same
forced values regardless of the partial update supplied — vision cannot be
durably disabled through this store. -/
theorem generalSettings_vision_forced :
    (∀ stored : Option GSPatch,
        (getSettings stored).useVision = true ∧
        (getSettings stored).useVisionForPlanner = true ∧
        (getSettings stored).minWaitPageLoad = 0 ∧
        (getSettings stored).replayHistoricalTasks = true) ∧
    (∀ (stored : Option GSPatch) (settings : GSPatch),
        (updateSettings stored settings).useVision = some true ∧
        (updateSettings stored settings).useVisionForPlanner = some true ∧
        (updateSettings stored settings).minWaitPageLoad = some 0 ∧
        (updateSettings stored settings).replayHistoricalTasks = some true) := by
  constructor
  · intro stored
    exact ⟨rfl, rfl, rfl, rfl⟩
  · intro stored settings
    exact ⟨rfl, rfl, rfl, rfl⟩

end SettingsClaims

namespace Control

theorem clamp_mem {x lo hi : ℝ} (h : lo ≤ hi) : lo ≤ clamp x lo hi ∧ clamp x lo hi ≤ hi :=
  ⟨le_min (le_max_right x lo) h, min_le_right _ _⟩

theorem clamp_of_mem {x lo hi : ℝ} (h0 : lo ≤ x) (h1 : x ≤ hi) : clamp x lo hi = x := by
  rw [clamp, max_eq_left h0, min_eq_left h1]

theorem ema_mem (prev sample alpha : ℝ) (h0 : 0 ≤ alpha) (h1 : alpha ≤ 1) :
    InUnit (ema prev sample alpha) := by
  obtain ⟨hs0, hs1⟩ := clamp_mem (x := sample) (zero_le_one (α := ℝ))
  obtain ⟨hp0, hp1⟩ := clamp_mem (x := prev) (zero_le_one (α := ℝ))
  unfold ema
  constructor
  · nlinarith
  · nlinarith

theorem smoothstep_mem (value edge0 edge1 : ℝ) : InUnit (smoothstep value edge0 edge1) := by
  obtain ⟨h0, h1⟩ :=
    clamp_mem (x := (value - edge0) / (edge1 - edge0)) (zero_le_one (α := ℝ))
  simp only [smoothstep]
  constructor
  · nlinarith
  · nlinarith [sq_nonneg (1 - clamp ((value - edge0) / (edge1 - edge0)) 0 1)]

theorem explorationRamp_mem (value : ℝ) : InUnit (explorationRamp value) := by
  obtain ⟨h0, h1⟩ := clamp_mem (x := value) (zero_le_one (α := ℝ))
  exact ⟨Real.rpow_nonneg h0 _, Real.rpow_le_one h0 h1 (by norm_num)⟩

theorem frictionBudget_mem (fp tp lp : ℝ) : InUnit (frictionBudget fp tp lp) :=
  clamp_mem zero_le_one

end Control

section ControlClaims1

open Control

/-- Claim C1: for every previous state with all five fields in [0,1] and
every telemetry — including NaN (`none`), negative or above-range numeric
fields — `computeController` is total and returns a state whose five
fields all lie in [0,1]; malformed numeric telemetry is clamped, never
propagated as an error. -/
theorem computeController_fields_in_unit :
    ∀ (state : ControlState) (telemetry : Telemetry),
      StateInUnit state → StateInUnit (computeController state telemetry) := by
  intro state telemetry _hstate
  simp only [computeController, StateInUnit]
  by_cases hsnap : (telemetry.lastOutcomeSuccess && SNAP_RESET) = true
  · simp only [if_pos hsnap]
    exact ⟨⟨zero_le_one, le_refl 1⟩,
      ema_mem _ _ _ (by norm_num [ALPHA_TIMEOUT]) (by norm_num [ALPHA_TIMEOUT]),
      ema_mem _ _ _ (by norm_num [ALPHA_LOOP]) (by norm_num [ALPHA_LOOP]),
      ⟨le_refl 0, zero_le_one⟩, ⟨le_refl 0, zero_le_one⟩⟩
  · simp only [if_neg hsnap]
    exact ⟨ema_mem _ _ _ (by norm_num [ALPHA_SUCCESS]) (by norm_num [ALPHA_SUCCESS]),
      ema_mem _ _ _ (by norm_num [ALPHA_TIMEOUT]) (by norm_num [ALPHA_TIMEOUT]),
      ema_mem _ _ _ (by norm_num [ALPHA_LOOP]) (by norm_num [ALPHA_LOOP]),
      explorationRamp_mem _, smoothstep_mem _ _ _⟩

/-- Witness for C1 at the default state and a malformed telemetry sample. -/
theorem computeController_fields_in_unit_witness :
    StateInUnit DEFAULT_CONTROL_STATE ∧
    StateInUnit (computeController DEFAULT_CONTROL_STATE nanTelemetry) :=
  ⟨by norm_num [StateInUnit, InUnit, DEFAULT_CONTROL_STATE],
    computeController_fields_in_unit DEFAULT_CONTROL_STATE nanTelemetry
      (by norm_num [StateInUnit, InUnit, DEFAULT_CONTROL_STATE])⟩

/-- Claim C2: snap reset.  For every previous state and every telemetry
with `lastOutcomeSuccess = true`, the returned state has `e = 0`, `g = 0`
and `emaSuccess = 1` — in particular at or above any in-range pre-update
`emaSuccess`. -/
theorem computeController_snap_reset :
    ∀ (state : ControlState) (telemetry : Telemetry),
      telemetry.lastOutcomeSuccess = true →
      (computeController state telemetry).e = 0 ∧
      (computeController state telemetry).g = 0 ∧
      (computeController state telemetry).emaSuccess = 1 ∧
      (state.emaSuccess ≤ 1 →
        state.emaSuccess ≤ (computeController state telemetry).emaSuccess) := by
  intro state telemetry h
  refine ⟨?_, ?_, ?_, ?_⟩ <;> simp [computeController, h, SNAP_RESET]

/-- Witness for C2 at the default state and a successful telemetry sample. -/
theorem computeController_snap_reset_witness :
    successTelemetry.lastOutcomeSuccess = true ∧
    ((computeController DEFAULT_CONTROL_STATE successTelemetry).e = 0 ∧
      (computeController DEFAULT_CONTROL_STATE successTelemetry).g = 0 ∧
      (computeController DEFAULT_CONTROL_STATE successTelemetry).emaSuccess = 1 ∧
      (DEFAULT_CONTROL_STATE.emaSuccess ≤ 1 →
        DEFAULT_CONTROL_STATE.emaSuccess ≤
          (computeController DEFAULT_CONTROL_STATE successTelemetry).emaSuccess)) :=
  ⟨rfl, computeController_snap_reset DEFAULT_CONTROL_STATE successTelemetry rfl⟩

end ControlClaims1

namespace Control

theorem ema_eval {prev sample : ℝ} (alpha : ℝ) (hs0 : 0 ≤ sample) (hs1 : sample ≤ 1)
    (hp0 : 0 ≤ prev) (hp1 : prev ≤ 1) :
    ema prev sample alpha = alpha * sample + (1 - alpha) * prev := by
  rw [ema, clamp_of_mem hs0 hs1, clamp_of_mem hp0 hp1]

theorem frictionBudget_eval {fp tp lp v : ℝ}
    (h : (WEIGHT_FAIL * fp + WEIGHT_TIMEOUT * tp + WEIGHT_LOOP * lp) /
        (WEIGHT_FAIL + WEIGHT_TIMEOUT + WEIGHT_LOOP) = v)
    (h0 : 0 ≤ v) (h1 : v ≤ 1) : frictionBudget fp tp lp = v := by
  simp only [frictionBudget]
  rw [h, clamp_of_mem h0 h1]

theorem explorationRamp_eval {x : ℝ} (h0 : 0 ≤ x) (h1 : x ≤ 1) :
    explorationRamp x = x ^ (0.85 : ℝ) := by
  rw [explorationRamp, clamp_of_mem h0 h1]

/-- One scenario-A step, on a state whose EMA components lie in `[0, 1]`:
the new EMA components and the new exploration intensity in closed form. -/
theorem scenario_step_fields (s : ControlState)
    (h1 : 0 ≤ s.emaSuccess) (h2 : s.emaSuccess ≤ 1)
    (h3 : 0 ≤ s.emaTimeouts) (h4 : s.emaTimeouts ≤ 1)
    (h5 : 0 ≤ s.emaLoop) (h6 : s.emaLoop ≤ 1) :
    (computeController s scenarioTelemetry).emaSuccess = 0.65 * s.emaSuccess ∧
    (computeController s scenarioTelemetry).emaTimeouts = 0.25 + 0.75 * s.emaTimeouts ∧
    (computeController s scenarioTelemetry).emaLoop = 0.18 + 0.8 * s.emaLoop ∧
    (computeController s scenarioTelemetry).e =
      explorationRamp
        (frictionBudget (1 - clamp (0.65 * s.emaSuccess) MIN_SUCCESS_EMA MAX_EMA)
          (0.25 + 0.75 * s.emaTimeouts) (0.18 + 0.8 * s.emaLoop)) := by
  have hS : ema s.emaSuccess 0 ALPHA_SUCCESS = 0.65 * s.emaSuccess := by
    rw [ema_eval _ (le_refl 0) zero_le_one h1 h2, ALPHA_SUCCESS]
    ring
  have hT : ema s.emaTimeouts 1 ALPHA_TIMEOUT = 0.25 + 0.75 * s.emaTimeouts := by
    rw [ema_eval _ zero_le_one (le_refl 1) h3 h4, ALPHA_TIMEOUT]
    ring
  have hL : ema s.emaLoop (clamp 0.9 0 1) ALPHA_LOOP = 0.18 + 0.8 * s.emaLoop := by
    rw [clamp_of_mem (by norm_num) (by norm_num),
      ema_eval _ (by norm_num) (by norm_num) h5 h6, ALPHA_LOOP]
    ring
  norm_num at hL
  simp only [computeController, scenarioTelemetry, SNAP_RESET, clampNum]
  norm_num [hS, hT, hL]


end Control

namespace Control

theorem scenario_e_eval {a b c x : ℝ}
    (ha5 : MIN_SUCCESS_EMA ≤ a) (ha9 : a ≤ MAX_EMA)
    (hx : (WEIGHT_FAIL * (1 - a) + WEIGHT_TIMEOUT * b + WEIGHT_LOOP * c) /
        (WEIGHT_FAIL + WEIGHT_TIMEOUT + WEIGHT_LOOP) = x)
    (hx0 : 0 ≤ x) (hx1 : x ≤ 1) :
    explorationRamp (frictionBudget (1 - clamp a MIN_SUCCESS_EMA MAX_EMA) b c) =
      x ^ (0.85 : ℝ) := by
  rw [clamp_of_mem ha5 ha9, frictionBudget_eval hx hx0 hx1, explorationRamp_eval hx0 hx1]

theorem scen_comp1 :
    (scenarioState 1).emaSuccess = 0.65 ∧ (scenarioState 1).emaTimeouts = 0.25 ∧
      (scenarioState 1).emaLoop = 0.18 := by
  have h := scenario_step_fields DEFAULT_CONTROL_STATE
    (by norm_num [DEFAULT_CONTROL_STATE]) (by norm_num [DEFAULT_CONTROL_STATE])
    (by norm_num [DEFAULT_CONTROL_STATE]) (by norm_num [DEFAULT_CONTROL_STATE])
    (by norm_num [DEFAULT_CONTROL_STATE]) (by norm_num [DEFAULT_CONTROL_STATE])
  rw [show scenarioState 1 = computeController DEFAULT_CONTROL_STATE scenarioTelemetry from rfl]
  exact ⟨by rw [h.1]; norm_num [DEFAULT_CONTROL_STATE],
    by rw [h.2.1]; norm_num [DEFAULT_CONTROL_STATE],
    by rw [h.2.2.1]; norm_num [DEFAULT_CONTROL_STATE]⟩

theorem scen_comp2 :
    (scenarioState 2).emaSuccess = 0.4225 ∧ (scenarioState 2).emaTimeouts = 0.4375 ∧
      (scenarioState 2).emaLoop = 0.324 := by
  obtain ⟨hA, hB, hC⟩ := scen_comp1
  have h := scenario_step_fields (scenarioState 1)
    (by rw [hA]; norm_num) (by rw [hA]; norm_num) (by rw [hB]; norm_num)
    (by rw [hB]; norm_num) (by rw [hC]; norm_num) (by rw [hC]; norm_num)
  rw [show scenarioState 2 = computeController (scenarioState 1) scenarioTelemetry from rfl]
  exact ⟨by rw [h.1, hA]; norm_num, by rw [h.2.1, hB]; norm_num, by rw [h.2.2.1, hC]; norm_num⟩

theorem scen_comp3 :
    (scenarioState 3).emaSuccess = 0.274625 ∧ (scenarioState 3).emaTimeouts = 0.578125 ∧
      (scenarioState 3).emaLoop = 0.4392 := by
  obtain ⟨hA, hB, hC⟩ := scen_comp2
  have h := scenario_step_fields (scenarioState 2)
    (by rw [hA]; norm_num) (by rw [hA]; norm_num) (by rw [hB]; norm_num)
    (by rw [hB]; norm_num) (by rw [hC]; norm_num) (by rw [hC]; norm_num)
  rw [show scenarioState 3 = computeController (scenarioState 2) scenarioTelemetry from rfl]
  exact ⟨by rw [h.1, hA]; norm_num, by rw [h.2.1, hB]; norm_num, by rw [h.2.2.1, hC]; norm_num⟩

theorem scen_comp4 :
    (scenarioState 4).emaSuccess = 0.17850625 ∧ (scenarioState 4).emaTimeouts = 0.68359375 ∧
      (scenarioState 4).emaLoop = 0.53136 := by
  obtain ⟨hA, hB, hC⟩ := scen_comp3
  have h := scenario_step_fields (scenarioState 3)
    (by rw [hA]; norm_num) (by rw [hA]; norm_num) (by rw [hB]; norm_num)
    (by rw [hB]; norm_num) (by rw [hC]; norm_num) (by rw [hC]; norm_num)
  rw [show scenarioState 4 = computeController (scenarioState 3) scenarioTelemetry from rfl]
  exact ⟨by rw [h.1, hA]; norm_num, by rw [h.2.1, hB]; norm_num, by rw [h.2.2.1, hC]; norm_num⟩

theorem scen_e1 : (scenarioState 1).e = ((0.34 / 1.15 : ℝ)) ^ (0.85 : ℝ) := by
  have h := scenario_step_fields DEFAULT_CONTROL_STATE
    (by norm_num [DEFAULT_CONTROL_STATE]) (by norm_num [DEFAULT_CONTROL_STATE])
    (by norm_num [DEFAULT_CONTROL_STATE]) (by norm_num [DEFAULT_CONTROL_STATE])
    (by norm_num [DEFAULT_CONTROL_STATE]) (by norm_num [DEFAULT_CONTROL_STATE])
  rw [show scenarioState 1 = computeController DEFAULT_CONTROL_STATE scenarioTelemetry from rfl,
    h.2.2.2,
    show (0.65 * DEFAULT_CONTROL_STATE.emaSuccess : ℝ) = 0.65 by
      norm_num [DEFAULT_CONTROL_STATE],
    show (0.25 + 0.75 * DEFAULT_CONTROL_STATE.emaTimeouts : ℝ) = 0.25 by
      norm_num [DEFAULT_CONTROL_STATE],
    show (0.18 + 0.8 * DEFAULT_CONTROL_STATE.emaLoop : ℝ) = 0.18 by
      norm_num [DEFAULT_CONTROL_STATE]]
  exact scenario_e_eval (by norm_num [MIN_SUCCESS_EMA]) (by norm_num [MAX_EMA])
    (by norm_num [WEIGHT_FAIL, WEIGHT_TIMEOUT, WEIGHT_LOOP]) (by norm_num) (by norm_num)

theorem scen_e2 : (scenarioState 2).e = ((0.57275 / 1.15 : ℝ)) ^ (0.85 : ℝ) := by
  obtain ⟨hA, hB, hC⟩ := scen_comp1
  have h := scenario_step_fields (scenarioState 1)
    (by rw [hA]; norm_num) (by rw [hA]; norm_num) (by rw [hB]; norm_num)
    (by rw [hB]; norm_num) (by rw [hC]; norm_num) (by rw [hC]; norm_num)
  rw [show scenarioState 2 = computeController (scenarioState 1) scenarioTelemetry from rfl,
    h.2.2.2, hA, hB, hC,
    show (0.65 * (0.65 : ℝ)) = 0.4225 by norm_num,
    show (0.25 + 0.75 * (0.25 : ℝ)) = 0.4375 by norm_num,
    show (0.18 + 0.8 * (0.18 : ℝ)) = 0.324 by norm_num]
  exact scenario_e_eval (by norm_num [MIN_SUCCESS_EMA]) (by norm_num [MAX_EMA])
    (by norm_num [WEIGHT_FAIL, WEIGHT_TIMEOUT, WEIGHT_LOOP]) (by norm_num) (by norm_num)

theorem scen_e3 : (scenarioState 3).e = ((0.7331875 / 1.15 : ℝ)) ^ (0.85 : ℝ) := by
  obtain ⟨hA, hB, hC⟩ := scen_comp2
  have h := scenario_step_fields (scenarioState 2)
    (by rw [hA]; norm_num) (by rw [hA]; norm_num) (by rw [hB]; norm_num)
    (by rw [hB]; norm_num) (by rw [hC]; norm_num) (by rw [hC]; norm_num)
  rw [show scenarioState 3 = computeController (scenarioState 2) scenarioTelemetry from rfl,
    h.2.2.2, hA, hB, hC,
    show (0.65 * (0.4225 : ℝ)) = 0.274625 by norm_num,
    show (0.25 + 0.75 * (0.4375 : ℝ)) = 0.578125 by norm_num,
    show (0.18 + 0.8 * (0.324 : ℝ)) = 0.4392 by norm_num]
  exact scenario_e_eval (by norm_num [MIN_SUCCESS_EMA]) (by norm_num [MAX_EMA])
    (by norm_num [WEIGHT_FAIL, WEIGHT_TIMEOUT, WEIGHT_LOOP]) (by norm_num) (by norm_num)

theorem scen_e4 : (scenarioState 4).e = ((0.844604375 / 1.15 : ℝ)) ^ (0.85 : ℝ) := by
  obtain ⟨hA, hB, hC⟩ := scen_comp3
  have h := scenario_step_fields (scenarioState 3)
    (by rw [hA]; norm_num) (by rw [hA]; norm_num) (by rw [hB]; norm_num)
    (by rw [hB]; norm_num) (by rw [hC]; norm_num) (by rw [hC]; norm_num)
  rw [show scenarioState 4 = computeController (scenarioState 3) scenarioTelemetry from rfl,
    h.2.2.2, hA, hB, hC,
    show (0.65 * (0.274625 : ℝ)) = 0.17850625 by norm_num,
    show (0.25 + 0.75 * (0.578125 : ℝ)) = 0.68359375 by norm_num,
    show (0.18 + 0.8 * (0.4392 : ℝ)) = 0.53136 by norm_num]
  exact scenario_e_eval (by norm_num [MIN_SUCCESS_EMA]) (by norm_num [MAX_EMA])
    (by norm_num [WEIGHT_FAIL, WEIGHT_TIMEOUT, WEIGHT_LOOP]) (by norm_num) (by norm_num)

theorem scen_e5 : (scenarioState 5).e = ((0.92259071875 / 1.15 : ℝ)) ^ (0.85 : ℝ) := by
  obtain ⟨hA, hB, hC⟩ := scen_comp4
  have h := scenario_step_fields (scenarioState 4)
    (by rw [hA]; norm_num) (by rw [hA]; norm_num) (by rw [hB]; norm_num)
    (by rw [hB]; norm_num) (by rw [hC]; norm_num) (by rw [hC]; norm_num)
  rw [show scenarioState 5 = computeController (scenarioState 4) scenarioTelemetry from rfl,
    h.2.2.2, hA, hB, hC,
    show (0.65 * (0.17850625 : ℝ)) = 0.1160290625 by norm_num,
    show (0.25 + 0.75 * (0.68359375 : ℝ)) = 0.7626953125 by norm_num,
    show (0.18 + 0.8 * (0.53136 : ℝ)) = 0.605088 by norm_num]
  exact scenario_e_eval (by norm_num [MIN_SUCCESS_EMA]) (by norm_num [MAX_EMA])
    (by norm_num [WEIGHT_FAIL, WEIGHT_TIMEOUT, WEIGHT_LOOP]) (by norm_num) (by norm_num)

end Control

section ControlClaims2

open Control

/-- Claim C8: scenario A.  Starting from the default control state and
applying `computeController` five times with the fixed telemetry
`{success: false, timeout: true, loopScore: 0.9, inputTokens: 0,
contextWindow: 0}`, the exploration intensity `e` strictly increases at
every one of the five steps and stays strictly below 1 throughout. -/
theorem scenarioA_e_monotone :
    ((scenarioState 1).e < (scenarioState 2).e ∧
      (scenarioState 2).e < (scenarioState 3).e ∧
      (scenarioState 3).e < (scenarioState 4).e ∧
      (scenarioState 4).e < (scenarioState 5).e) ∧
    (0 < (scenarioState 1).e ∧
      (scenarioState 1).e < 1 ∧ (scenarioState 2).e < 1 ∧ (scenarioState 3).e < 1 ∧
      (scenarioState 4).e < 1 ∧ (scenarioState 5).e < 1) := by
  rw [scen_e1, scen_e2, scen_e3, scen_e4, scen_e5]
  refine ⟨⟨?_, ?_, ?_, ?_⟩, ?_, ?_, ?_, ?_, ?_, ?_⟩
  · exact Real.rpow_lt_rpow (by norm_num) (by norm_num) (by norm_num)
  · exact Real.rpow_lt_rpow (by norm_num) (by norm_num) (by norm_num)
  · exact Real.rpow_lt_rpow (by norm_num) (by norm_num) (by norm_num)
  · exact Real.rpow_lt_rpow (by norm_num) (by norm_num) (by norm_num)
  · exact Real.rpow_pos_of_pos (by norm_num) _
  · exact Real.rpow_lt_one (by norm_num) (by norm_num) (by norm_num)
  · exact Real.rpow_lt_one (by norm_num) (by norm_num) (by norm_num)
  · exact Real.rpow_lt_one (by norm_num) (by norm_num) (by norm_num)
  · exact Real.rpow_lt_one (by norm_num) (by norm_num) (by norm_num)
  · exact Real.rpow_lt_one (by norm_num) (by norm_num) (by norm_num)

end ControlClaims2

namespace Control

@[simp] theorem directorMap_temperature (role : Role) (e g : ℝ) (d : Defaults)
    (ctx : DirectorContext) :
    (directorMap role e g d ctx).temperature =
      adjustTemperature (d.get role).temperature (explorationRamp e) role := rfl

@[simp] theorem directorMap_top_p (role : Role) (e g : ℝ) (d : Defaults)
    (ctx : DirectorContext) :
    (directorMap role e g d ctx).top_p =
      adjustTopP (d.get role).top_p (explorationRamp e) role := rfl

@[simp] theorem directorMap_frequency (role : Role) (e g : ℝ) (d : Defaults)
    (ctx : DirectorContext) :
    (directorMap role e g d ctx).frequency_penalty =
      adjustPenalties (d.get role).frequency_penalty g := rfl

@[simp] theorem directorMap_presence (role : Role) (e g : ℝ) (d : Defaults)
    (ctx : DirectorContext) :
    (directorMap role e g d ctx).presence_penalty =
      adjustPenalties (d.get role).presence_penalty (g * 0.75) := rfl

@[simp] theorem directorMap_top_k (role : Role) (e g : ℝ) (d : Defaults)
    (ctx : DirectorContext) :
    (directorMap role e g d ctx).top_k =
      adjustTopK (d.get role).top_k (explorationRamp e) := rfl

@[simp] theorem directorMap_max_tokens (role : Role) (e g : ℝ) (d : Defaults)
    (ctx : DirectorContext) :
    (directorMap role e g d ctx).max_tokens =
      adjustMaxTokens (d.get role).max_tokens (explorationRamp e) g ctx := rfl

theorem clamp_mono {x y lo hi : ℝ} (h : x ≤ y) : clamp x lo hi ≤ clamp y lo hi :=
  min_le_min (max_le_max h le_rfl) le_rfl

theorem explorationRamp_mono {x y : ℝ} (h : x ≤ y) :
    explorationRamp x ≤ explorationRamp y :=
  Real.rpow_le_rpow (clamp_mem zero_le_one).1 (clamp_mono h) (by norm_num)

theorem round_mono' {x y : ℝ} (h : x ≤ y) : round x ≤ round y := by
  rw [round_eq, round_eq]
  exact Int.floor_mono (by linarith)

theorem adjustTemperature_mono (b : ℝ) (role : Role) {t₁ t₂ : ℝ} (h : t₁ ≤ t₂) :
    adjustTemperature b t₁ role ≤ adjustTemperature b t₂ role := by
  simp only [adjustTemperature]
  have hb : (0 : ℝ) ≤ if role = Role.planner then (0.65 : ℝ) else 0.45 := by
    split <;> norm_num
  exact clamp_mono (add_le_add_left (mul_le_mul_of_nonneg_left h hb) b)

theorem adjustTopP_mono (b : ℝ) (role : Role) {t₁ t₂ : ℝ} (h : t₁ ≤ t₂) :
    adjustTopP b t₁ role ≤ adjustTopP b t₂ role := by
  simp only [adjustTopP]
  have hb : (0 : ℝ) ≤ if role = Role.planner then (0.25 : ℝ) else 0.18 := by
    split <;> norm_num
  exact clamp_mono (add_le_add_left (mul_le_mul_of_nonneg_left h hb) b)

theorem adjustMaxTokens_mono (b t : ℝ) (ctx : DirectorContext) (hb : 0 ≤ b)
    {g₁ g₂ : ℝ} (h : g₁ ≤ g₂) :
    adjustMaxTokens b t g₁ ctx ≤ adjustMaxTokens b t g₂ ctx := by
  simp only [adjustMaxTokens]
  have h1 : b * (0.15 * t + 0.1 * g₁) ≤ b * (0.15 * t + 0.1 * g₂) :=
    mul_le_mul_of_nonneg_left (by linarith) hb
  have h2 : ((round (b * (0.15 * t + 0.1 * g₁)) : ℤ) : ℝ) ≤
      ((round (b * (0.15 * t + 0.1 * g₂)) : ℤ) : ℝ) :=
    Int.cast_le.mpr (round_mono' h1)
  exact clamp_mono (by linarith)

theorem explorationRamp_zero : explorationRamp (0 : ℝ) = 0 := by
  rw [explorationRamp, clamp_of_mem le_rfl zero_le_one]
  exact Real.zero_rpow (by norm_num)

end Control

section ControlClaims3

open Control

/-- Counterexample for C7: with a baseline whose `max_tokens` is negative,
`max_tokens` is not monotone in glide — at exploration 0, glide −20 yields
10000 while glide −10 yields 128. -/
theorem directorMap_glide_mono_counterexample :
    ((-20 : ℝ) ≤ -10) ∧
    ¬ ((directorMap Role.navigator 0 (-20) cxDefaults {}).max_tokens ≤
        (directorMap Role.navigator 0 (-10) cxDefaults {}).max_tokens) := by
  have hramp := explorationRamp_zero
  have h20 : (directorMap Role.navigator 0 (-20) cxDefaults {}).max_tokens = 10000 := by
    rw [directorMap_max_tokens, hramp]
    simp only [adjustMaxTokens, cxDefaults, Defaults.get, Option.getD]
    rw [show ((-10000 : ℝ)) * (0.15 * 0 + 0.1 * (-20)) = 20000 by norm_num,
      show round ((20000 : ℝ)) = (20000 : ℤ) by norm_num [round_eq],
      clamp_of_mem le_rfl zero_le_one,
      show ((-10000 : ℝ)) * 0.1 * 0 = 0 by norm_num,
      show round ((0 : ℝ)) = (0 : ℤ) by norm_num]
    rw [clamp_of_mem (by norm_num) (by norm_num)]
    norm_num
  have h10 : (directorMap Role.navigator 0 (-10) cxDefaults {}).max_tokens = 128 := by
    rw [directorMap_max_tokens, hramp]
    simp only [adjustMaxTokens, cxDefaults, Defaults.get, Option.getD]
    rw [show ((-10000 : ℝ)) * (0.15 * 0 + 0.1 * (-10)) = 10000 by norm_num,
      show round ((10000 : ℝ)) = (10000 : ℤ) by norm_num [round_eq],
      clamp_of_mem le_rfl zero_le_one,
      show ((-10000 : ℝ)) * 0.1 * 0 = 0 by norm_num,
      show round ((0 : ℝ)) = (0 : ℤ) by norm_num]
    rw [show ((-10000 : ℝ) + ((10000 : ℤ) : ℝ) + ((0 : ℤ) : ℝ)) = 0 by norm_num]
    rw [clamp, max_eq_right (by norm_num), min_eq_left (by norm_num)]
  rw [h20, h10]
  norm_num

/-- Amended C7: temperature and top_p are monotone non-decreasing in the
exploration argument (glide fixed); max_tokens is monotone non-decreasing
in the glide argument (exploration fixed) provided the baseline
`max_tokens` is nonnegative; and for arbitrary, even out-of-range, inputs
every numeric output stays within its clamp range: temperature in [0,2],
top_p in [0,1], penalties in [−2,2], top_k in [1,2000] when present,
max_tokens in [128,320000]. -/
theorem directorMap_amended :
    (∀ (role : Role) (defaults : Defaults) (ctx : DirectorContext) (glide e₁ e₂ : ℝ),
        e₁ ≤ e₂ →
        (directorMap role e₁ glide defaults ctx).temperature ≤
            (directorMap role e₂ glide defaults ctx).temperature ∧
          (directorMap role e₁ glide defaults ctx).top_p ≤
            (directorMap role e₂ glide defaults ctx).top_p) ∧
    (∀ (role : Role) (defaults : Defaults) (ctx : DirectorContext) (expl g₁ g₂ : ℝ),
        0 ≤ (defaults.get role).max_tokens → g₁ ≤ g₂ →
        (directorMap role expl g₁ defaults ctx).max_tokens ≤
          (directorMap role expl g₂ defaults ctx).max_tokens) ∧
    (∀ (role : Role) (defaults : Defaults) (ctx : DirectorContext) (expl glide : ℝ),
        (0 ≤ (directorMap role expl glide defaults ctx).temperature ∧
          (directorMap role expl glide defaults ctx).temperature ≤ 2) ∧
        (0 ≤ (directorMap role expl glide defaults ctx).top_p ∧
          (directorMap role expl glide defaults ctx).top_p ≤ 1) ∧
        (-2 ≤ (directorMap role expl glide defaults ctx).frequency_penalty ∧
          (directorMap role expl glide defaults ctx).frequency_penalty ≤ 2) ∧
        (-2 ≤ (directorMap role expl glide defaults ctx).presence_penalty ∧
          (directorMap role expl glide defaults ctx).presence_penalty ≤ 2) ∧
        (∀ k, (directorMap role expl glide defaults ctx).top_k = some k →
          1 ≤ k ∧ k ≤ 2000) ∧
        (128 ≤ (directorMap role expl glide defaults ctx).max_tokens ∧
          (directorMap role expl glide defaults ctx).max_tokens ≤ 320000)) := by
  refine ⟨?_, ?_, ?_⟩
  · intro role defaults ctx glide e₁ e₂ h
    exact ⟨adjustTemperature_mono _ _ (explorationRamp_mono h),
      adjustTopP_mono _ _ (explorationRamp_mono h)⟩
  · intro role defaults ctx expl g₁ g₂ hb h
    exact adjustMaxTokens_mono _ _ _ hb h
  · intro role defaults ctx expl glide
    refine ⟨?_, ?_, ?_, ?_, ?_, ?_⟩
    · exact clamp_mem (by norm_num)
    · exact clamp_mem (by norm_num)
    · exact clamp_mem (by norm_num)
    · exact clamp_mem (by norm_num)
    · intro k hk
      rw [directorMap_top_k] at hk
      cases htk : (defaults.get role).top_k with
      | none => rw [htk] at hk; simp [adjustTopK] at hk
      | some v =>
        rw [htk] at hk
        simp only [adjustTopK, Option.some.injEq] at hk
        rw [← hk]
        exact clamp_mem (by norm_num)
    · exact clamp_mem (by norm_num)

/-- Witness for the amended C7 at concrete inputs. -/
theorem directorMap_amended_witness :
    ((0 : ℝ) ≤ 0.5 ∧
      ((directorMap Role.planner 0 0.3 cxDefaults {}).temperature ≤
          (directorMap Role.planner 0.5 0.3 cxDefaults {}).temperature ∧
        (directorMap Role.planner 0 0.3 cxDefaults {}).top_p ≤
          (directorMap Role.planner 0.5 0.3 cxDefaults {}).top_p)) ∧
    (0 ≤ (cxDefaults.get Role.planner).max_tokens ∧ (0 : ℝ) ≤ 1 ∧
      (directorMap Role.planner 0.5 0 cxDefaults {}).max_tokens ≤
        (directorMap Role.planner 0.5 1 cxDefaults {}).max_tokens) ∧
    (128 ≤ (directorMap Role.planner 0.5 0.3 cxDefaults {}).max_tokens ∧
      (directorMap Role.planner 0.5 0.3 cxDefaults {}).max_tokens ≤ 320000) :=
  ⟨⟨by norm_num,
    directorMap_amended.1 Role.planner cxDefaults {} 0.3 0 0.5 (by norm_num)⟩,
    ⟨by norm_num [cxDefaults, Defaults.get], by norm_num,
      directorMap_amended.2.1 Role.planner cxDefaults {} 0.5 0 1
        (by norm_num [cxDefaults, Defaults.get]) (by norm_num)⟩,
    (directorMap_amended.2.2 Role.planner cxDefaults {} 0.5 0.3).2.2.2.2.2⟩

end ControlClaims3
